import Mathlib

/-!
Shallow embedding of the core generation, defect-injection and merge logic of
the Weather-Impact-on-Urban-Traffic-Analysis repository
(src/scripts/weather_raw.py, src/scripts/traffic_raw.py,
src/scripts/merge_datasets.py), together with theorems settling the
specification claims about it.

Modelling conventions:
  * Python's global `random` module is an explicit pseudo-random state `RNG`
    threaded through every helper, with exactly one state step per call of
    `random.random`, `random.randint`, `random.uniform`, `random.choice`,
    in the evaluation order of the Python source.
  * Python floats are modelled as rationals; `round(x, 2)` and `int(x)` are
    modelled exactly on rationals.
  * A nullable Python value (the `None` injected by `maybe_null`) is an
    `Option`.
  * `pandas` library calls are modelled by their documented behaviour:
    `pd.to_datetime(..., errors="coerce")` recovers the instant of any of the
    three valid timestamp renderings and yields NaT on the malformed
    sentinels; `DataFrame.sample(k)` draws `k` distinct rows and raises when
    `k` is negative or exceeds the table length (the generators then return
    `none`); `pd.merge(..., how="inner")` emits one row per matching key
    pair.
-/

attribute [local semireducible] Rat.mul Rat.add Rat.sub Rat.inv

set_option maxRecDepth 40000

/-- State of one pseudo-random source (CPython's or numpy's global one). -/
structure RNG where
  state : Nat
deriving DecidableEq, Repr

/-- One step of the pseudo-random source: a 64-bit linear congruential
generator standing in for the Mersenne twister.  Returns a 30-bit draw and
the advanced state. -/
def rngNext (g : RNG) : Nat × RNG :=
  let s := (6364136223846793005 * g.state + 1442695040888963407) % 18446744073709551616
  ((s ^^^ (s / 8589934592)) % 1073741824, RNG.mk s)

/-- Model of `random.random()`: a rational in `[0, 1)`. -/
def randFloat (g : RNG) : ℚ × RNG :=
  let p := rngNext g
  ((p.1 : ℚ) / 1073741824, p.2)

/-- Model of `random.randint(a, b)`: an integer in `[a, b]`, both ends
included. -/
def randint (a b : Int) (g : RNG) : Int × RNG :=
  let p := rngNext g
  (a + (p.1 : Int) % (b - a + 1), p.2)

/-- Model of `random.uniform(a, b)`: `a + (b - a) * random.random()`. -/
def rand_uniform (a b : ℚ) (g : RNG) : ℚ × RNG :=
  let p := randFloat g
  (a + (b - a) * p.1, p.2)

/-- Model of `random.choice` on the non-empty list `x :: xs`: one draw,
uniform over the list. -/
def pychoice (x : α) (xs : List α) (g : RNG) : α × RNG :=
  let p := rngNext g
  ((x :: xs).get (Fin.mk (p.1 % (x :: xs).length) (Nat.mod_lt _ (Nat.succ_pos _))), p.2)

/-- Round a rational to the nearest integer, halves up: `⌊q + 1/2⌋`,
computed directly on the numerator and denominator so that it evaluates
inside the kernel.  (Python's `round` resolves exact halves to even; the
difference matters only on exact multiples of 0.005, which no claim
touches.) -/
def rat_round (q : ℚ) : Int := Int.fdiv (2 * q.num + (q.den : Int)) (2 * (q.den : Int))

/-- Model of Python `round(q, 2)`: round to two decimal places. -/
def round2 (q : ℚ) : ℚ := ((rat_round (q * 100) : Int) : ℚ) / 100

/-- Model of Python `int(q)`: truncation toward zero, computed on the
numerator and denominator (`q.num.tdiv q.den`), which agrees with
`⌊q⌋` for non-negative `q` (see `pyInt_ofNonneg`). -/
def pyInt (q : ℚ) : Int := Int.tdiv q.num ((q.den : Nat) : Int)

/-- Model of `maybe_null` (weather_raw.py line 169, traffic_raw.py line 111):
return `None` with probability `null_ratio`, else the value unchanged. -/
def maybe_null (null_ratio : ℚ) (value : α) (g : RNG) : Option α × RNG :=
  let p := randFloat g
  (if p.1 < null_ratio then none else some value, p.2)

/-- Model of `with_outliers` (weather_raw.py line 173, traffic_raw.py
line 115): with probability `outlier_ratio` replace the value by a uniform
draw from `[outlier_low - 25, outlier_low]` or `[outlier_high,
outlier_high + 25]` (coin flip between the bands), else keep it.  `emb`
embeds the rational outlier into the field's value type: `id` for numeric
fields, `Vis.num` for the weather visibility field, which can also hold
text. -/
def with_outliers (outlier_ratio : ℚ) (emb : ℚ → α) (normal_value : α)
    (outlier_low outlier_high : ℚ) (g : RNG) : α × RNG :=
  let p := randFloat g
  if p.1 < outlier_ratio then
    let c := randFloat p.2
    if c.1 < 1 / 2 then
      let u := rand_uniform (outlier_low - 25) outlier_low c.2
      (emb u.1, u.2)
    else
      let u := rand_uniform outlier_high (outlier_high + 25) c.2
      (emb u.1, u.2)
  else (normal_value, p.2)

/-- A generated timestamp: either one of the malformed sentinel strings or a
valid instant (hours since 2024-01-01 00:00) tagged with which of the three
strftime renderings (`"%Y-%m-%d %H:%M"`, `"%d/%m/%Y %I%p"`,
`"%Y-%m-%dT%H:%MZ"`) was chosen.  All three renderings denote the same
instant, which `pd.to_datetime` recovers. -/
inductive TS
  | bad (s : String)
  | good (fmt : Nat) (hours : Nat)
deriving DecidableEq, Repr

/-- A weather visibility value: a number of meters or a textual garbage
sentinel. -/
inductive Vis
  | num (q : ℚ)
  | txt (s : String)
deriving DecidableEq, Repr

/-- Leap-year test for the timestamp arithmetic. -/
def isLeap (y : Nat) : Bool := (y % 4 == 0 && y % 100 != 0) || (y % 400 == 0)

/-- Month lengths of a year. -/
def monthLengths (leap : Bool) : List Nat :=
  [31, if leap then 29 else 28, 31, 30, 31, 30, 31, 31, 30, 31, 30, 31]

/-- Month number (starting at `m`) of day-of-year `d` given remaining month
lengths. -/
def monthFromDayOfYear : List Nat → Nat → Nat → Nat
  | [], _, m => m
  | len :: rest, d, m => if d < len then m else monthFromDayOfYear rest (d - len) (m + 1)

/-- Month computation worker: the fuel bounds the number of whole years
skipped, so `d + 1` fuel always suffices (a year is at least 365 days). -/
def monthOfDaysAux : Nat → Nat → Nat → Nat
  | 0, _, _ => 1
  | fuel + 1, y, d =>
    if d < (if isLeap y then 366 else 365) then
      monthFromDayOfYear (monthLengths (isLeap y)) d 1
    else monthOfDaysAux fuel (y + 1) (d - (if isLeap y then 366 else 365))

/-- Month (1..12) of the day falling `d` days after the start of year `y`. -/
def monthOfDays (y d : Nat) : Nat := monthOfDaysAux (d + 1) y d

/-- One row of the weather table (weather_raw.py lines 194-206). -/
structure WRow where
  weather_id : Option Int
  date_time : Option TS
  city : Option String
  season : Option String
  temperature_c : Option ℚ
  humidity : Option ℚ
  rain_mm : Option ℚ
  weather_condition : Option String
  wind_speed_kmh : Option ℚ
  visibility_m : Option Vis
  air_pressure_hpa : Option ℚ
deriving DecidableEq, Repr

/-- Configuration of `generate_weather_dataset` (defaults in the source:
5000 rows, ratios 0.05 / 0.1 / 0.1 / 0.01). -/
structure WCfg where
  n_rows : Nat
  duplicate_ratio : ℚ
  null_ratio : ℚ
  outlier_ratio : ℚ
  bad_format_ratio : ℚ
deriving DecidableEq, Repr

/-- Model of `generate_datetime` (weather_raw.py line 20): with probability
`bad_format_ratio` one of three garbage strings, else the sequential instant
`base + 2 i` hours rendered in one of three formats chosen at random. -/
def generate_datetime (bad_format_ratio : ℚ) (index : Nat) (g : RNG) : TS × RNG :=
  let p := randFloat g
  if p.1 < bad_format_ratio then
    let c := pychoice "2099-13-40 25:61" ["Unknown", "TBD"] p.2
    (TS.bad c.1, c.2)
  else
    pychoice (TS.good 0 (2 * index)) [TS.good 1 (2 * index), TS.good 2 (2 * index)] p.2

/-- Model of `get_season` (weather_raw.py line 36): derive the season from
the parsed month; when `pd.to_datetime(..., errors="coerce")` gives NaT
(a `None` timestamp or a malformed sentinel) choose a season uniformly at
random. -/
def get_season (dt_str : Option TS) (g : RNG) : String × RNG :=
  match dt_str with
  | some (TS.good _ hours) =>
    let m := monthOfDays 2024 (hours / 24)
    (if m = 12 ∨ m = 1 ∨ m = 2 then "Winter"
     else if m = 3 ∨ m = 4 ∨ m = 5 then "Spring"
     else if m = 6 ∨ m = 7 ∨ m = 8 then "Summer"
     else "Autumn", g)
  | _ => pychoice "Winter" ["Spring", "Summer", "Autumn"] g

/-- Model of `temperature_by_season` (weather_raw.py line 52): uniform draw
from the season range, `(0, 30)` as fallback for unknown or null seasons,
rounded to two decimals. -/
def temperature_by_season (season : Option String) (g : RNG) : ℚ × RNG :=
  let lh : ℚ × ℚ :=
    if season = some "Winter" then (-5, 15)
    else if season = some "Spring" then (5, 20)
    else if season = some "Summer" then (10, 35)
    else if season = some "Autumn" then (5, 25)
    else (0, 30)
  let u := rand_uniform lh.1 lh.2 g
  (round2 u.1, u.2)

/-- Model of `generate_humidity` (weather_raw.py line 63): uniform integer
from the season range, `(20, 100)` as fallback. -/
def generate_humidity (season : Option String) (g : RNG) : Int × RNG :=
  let lh : Int × Int :=
    if season = some "Winter" then (40, 90)
    else if season = some "Spring" then (30, 80)
    else if season = some "Summer" then (20, 70)
    else if season = some "Autumn" then (50, 100)
    else (20, 100)
  randint lh.1 lh.2 g

/-- Model of `generate_rain` (weather_raw.py line 75). -/
def generate_rain (humidity : Option ℚ) (g : RNG) : ℚ × RNG :=
  match humidity with
  | none =>
    let u := rand_uniform 0 20 g
    (round2 u.1, u.2)
  | some h =>
    if h < 60 then (0, g)
    else
      let p := randFloat g
      if p.1 > 3 / 10 then (0, p.2)
      else if h < 80 then
        let u := rand_uniform 1 15 p.2
        (round2 u.1, u.2)
      else
        let u := rand_uniform 10 80 p.2
        (round2 u.1, u.2)

/-- Rain-based tail of `generate_weather_condition` (weather_raw.py lines
101-114), reached when the snow branch did not fire. -/
def gwc_rain (rain_mm : Option ℚ) (g : RNG) : String × RNG :=
  match rain_mm with
  | none => pychoice "Clear" ["Fog"] g
  | some r =>
    if r ≥ 50 then
      let p := randFloat g
      (if p.1 < 6 / 10 then "Storm" else "Rain", p.2)
    else if r ≥ 25 then ("Rain", g)
    else if r ≥ 10 then
      let p := randFloat g
      (if p.1 < 6 / 10 then "Rain" else "Clear", p.2)
    else if r > 0 then pychoice "Clear" ["Fog"] g
    else ("Clear", g)

/-- Model of `generate_weather_condition` (weather_raw.py line 95): when the
temperature is non-null and at most 5, a 40% snow chance short-circuits the
rain cascade. -/
def generate_weather_condition (rain_mm temperature_c : Option ℚ) (g : RNG) : String × RNG :=
  match temperature_c with
  | some t =>
    if t ≤ 5 then
      let p := randFloat g
      if p.1 < 4 / 10 then ("Snow", p.2) else gwc_rain rain_mm p.2
    else gwc_rain rain_mm g
  | none => gwc_rain rain_mm g

/-- Model of `generate_wind_speed` (weather_raw.py line 117). -/
def generate_wind_speed (weather_condition : Option String) (g : RNG) : ℚ × RNG :=
  if weather_condition = some "Storm" then
    let p1 := randFloat g
    if p1.1 < 2 / 10 then
      let u := rand_uniform 100 150 p1.2
      (round2 u.1, u.2)
    else
      let p2 := randFloat p1.2
      if p2.1 < 6 / 10 then
        let u := rand_uniform 50 80 p2.2
        (round2 u.1, u.2)
      else
        let u := rand_uniform 0 80 p2.2
        (round2 u.1, u.2)
  else
    let u := rand_uniform 0 80 g
    (round2 u.1, u.2)

/-- Model of `generate_visibility` (weather_raw.py line 128). -/
def generate_visibility (weather_condition : Option String) (g : RNG) : Vis × RNG :=
  let p := randFloat g
  if p.1 < 3 / 100 then
    let c := pychoice "unknown" ["N/A", "error", "???"] p.2
    (Vis.txt c.1, c.2)
  else
    if weather_condition = some "Fog" ∨ weather_condition = some "Rain" ∨
        weather_condition = some "Storm" ∨ weather_condition = some "Snow" then
      let q1 := randFloat p.2
      if q1.1 < 15 / 100 then
        let r := randint 50 1000 q1.2
        (Vis.num (r.1 : ℚ), r.2)
      else
        let q2 := randFloat q1.2
        if q2.1 < 6 / 10 then
          let r := randint 1000 8000 q2.2
          (Vis.num (r.1 : ℚ), r.2)
        else
          let r := randint 8000 12000 q2.2
          (Vis.num (r.1 : ℚ), r.2)
    else
      let r := randint 8000 12000 p.2
      (Vis.num (r.1 : ℚ), r.2)

/-- Model of `generate_air_pressure` (weather_raw.py line 143). -/
def generate_air_pressure (weather_condition : Option String) (temperature_c : Option ℚ)
    (g : RNG) : ℚ × RNG :=
  let lhg : ℚ × ℚ × RNG :=
    if weather_condition = some "Storm" then
      let l := rand_uniform 950 970 g
      let h := rand_uniform 980 1000 l.2
      (l.1, h.1, h.2)
    else if weather_condition = some "Rain" ∨ weather_condition = some "Snow" then
      let l := rand_uniform 960 990 g
      let h := rand_uniform 1000 1050 l.2
      (l.1, h.1, h.2)
    else (990, 1030, g)
  let lh2 : ℚ × ℚ :=
    match temperature_c with
    | some t =>
      if t > 30 then (lhg.1 - 10, lhg.2.1 - 10)
      else if t < 0 then (lhg.1 + 10, lhg.2.1 + 10)
      else (lhg.1, lhg.2.1)
    | none => (lhg.1, lhg.2.1)
  let u := rand_uniform lh2.1 lh2.2 lhg.2.2
  (round2 u.1, u.2)

/-- One iteration of the row loop of `generate_weather_dataset`
(weather_raw.py lines 183-208), with the random draws in the evaluation
order of the source (the `weather_id` null-check happens when the row dict
is built, after all other fields). -/
def genWeatherRow (cfg : WCfg) (i : Nat) (g0 : RNG) : WRow × RNG :=
  let dtv := generate_datetime cfg.bad_format_ratio i g0
  let dt := maybe_null cfg.null_ratio dtv.1 dtv.2
  let sv := get_season dt.1 dt.2
  let s := maybe_null cfg.null_ratio sv.1 sv.2
  let tv := temperature_by_season s.1 s.2
  let t1 := with_outliers cfg.outlier_ratio id tv.1 (-30) 60 tv.2
  let t := maybe_null cfg.null_ratio t1.1 t1.2
  let hv := generate_humidity s.1 t.2
  let h1 := with_outliers cfg.outlier_ratio id ((hv.1 : ℚ)) (-10) 150 hv.2
  let h := maybe_null cfg.null_ratio h1.1 h1.2
  let rv := generate_rain h.1 h.2
  let r1 := with_outliers cfg.outlier_ratio id rv.1 100 200 rv.2
  let r := maybe_null cfg.null_ratio r1.1 r1.2
  let wcv := generate_weather_condition r.1 t.1 r.2
  let wc := maybe_null cfg.null_ratio wcv.1 wcv.2
  let wsv := generate_wind_speed wc.1 wc.2
  let ws1 := with_outliers cfg.outlier_ratio id wsv.1 200 350 wsv.2
  let ws := maybe_null cfg.null_ratio ws1.1 ws1.2
  let vv := generate_visibility wc.1 ws.2
  let v1 := with_outliers cfg.outlier_ratio Vis.num vv.1 50000 120000 vv.2
  let v := maybe_null cfg.null_ratio v1.1 v1.2
  let av := generate_air_pressure wc.1 t.1 v.2
  let a1 := with_outliers cfg.outlier_ratio id av.1 900 1100 av.2
  let a := maybe_null cfg.null_ratio a1.1 a1.2
  let wid := maybe_null cfg.null_ratio ((5001 + (i : Int))) a.2
  ({ weather_id := wid.1, date_time := dt.1, city := (maybe_null cfg.null_ratio "London" wid.2).1,
     season := s.1, temperature_c := t.1, humidity := h.1, rain_mm := r.1,
     weather_condition := wc.1, wind_speed_kmh := ws.1, visibility_m := v.1,
     air_pressure_hpa := a.1 }, (maybe_null cfg.null_ratio "London" wid.2).2)

/-- The base row loop `for i in range(n_rows)` of `generate_weather_dataset`:
`n` rows starting at index `i`. -/
def genWeatherRows (cfg : WCfg) : Nat → Nat → RNG → List WRow × RNG
  | 0, _, g => ([], g)
  | n + 1, i, g =>
    let r := genWeatherRow cfg i g
    let rest := genWeatherRows cfg n (i + 1) r.2
    (r.1 :: rest.1, rest.2)

/-- Model of `DataFrame.sample(k)` (without replacement): draw `k` distinct
rows, one draw of the numpy stream per row.  Callers guard `k` against the
table length (pandas raises otherwise). -/
def sampleIdx : Nat → List α → RNG → List α × RNG
  | 0, _, g => ([], g)
  | _ + 1, [], g => ([], g)
  | k + 1, x :: xs, g =>
    let p := rngNext g
    let i := p.1 % (xs.length + 1)
    let rest := sampleIdx k ((x :: xs).eraseIdx i) p.2
    ((x :: xs).getD i x :: rest.1, rest.2)

/-- The pair of global random sources: CPython's `random` module and numpy's
global state. -/
structure GState where
  py : RNG
  np : RNG
deriving DecidableEq, Repr

/-- Seeding a source (`random.seed`, `np.random.seed`). -/
def mkRNG (seed : Nat) : RNG := RNG.mk seed

/-- Model of `generate_weather_dataset` (weather_raw.py lines 6-216).
`ambient` is the state of the two global random sources before the call;
lines 13-14 re-seed both with 42, so the body never reads it.  Returns
`none` exactly when `df.sample(dup_count)` would raise (duplicate count
negative or larger than the base table). -/
def generate_weather_dataset (ambient : GState) (cfg : WCfg) : Option (List WRow) :=
  let gpy := mkRNG 42
  let gnp := mkRNG 42
  let rows := (genWeatherRows cfg cfg.n_rows 0 gpy).1
  let dup_count := pyInt ((cfg.n_rows : ℚ) * cfg.duplicate_ratio)
  if 0 ≤ dup_count ∧ dup_count.toNat ≤ rows.length then
    some (rows ++ (sampleIdx dup_count.toNat rows gnp).1)
  else none

/-- One row of the traffic table (traffic_raw.py lines 143-154). -/
structure TRow where
  traffic_id : Option Int
  date_time : Option TS
  city : Option String
  area : Option String
  vehicle_count : Option ℚ
  road_condition : Option String
  avg_speed_kmh : Option ℚ
  congestion_level : Option String
  accident_count : Option ℚ
  visibility_m : Option ℚ
deriving DecidableEq, Repr

/-- Configuration of `generate_traffic_dataset` (defaults in the source:
5000 rows, ratios 0.05 / 0.1 / 0.1). -/
structure TCfg where
  n_rows : Nat
  duplicate_ratio : ℚ
  null_ratio : ℚ
  outlier_ratio : ℚ
deriving DecidableEq, Repr

/-- Model of `generate_area` (traffic_raw.py line 24): uniform district. -/
def generate_area (g : RNG) : String × RNG :=
  pychoice "Camden" ["Chelsea", "Islington", "Southwark", "Kensington", "Westminster", "Greenwich"] g

/-- Model of `generate_vehicle_count` (traffic_raw.py line 28): hour-of-day
conditioned count; when the paired weather timestamp does not parse
(NaT from a null or malformed value) fall back to a wide range. -/
def generate_vehicle_count (time_str : Option TS) (g : RNG) : Int × RNG :=
  match time_str with
  | some (TS.good _ hours) =>
    let hour := hours % 24
    if (7 ≤ hour ∧ hour ≤ 9) ∨ (16 ≤ hour ∧ hour ≤ 19) then randint 2000 5000 g
    else if hour ≤ 5 then randint 0 500 g
    else randint 800 2500 g
  | _ => randint 100 3000 g

/-- Model of `generate_road_condition` (traffic_raw.py line 45): Snow forces
Snowy and Rain/Storm force Wet (no draw); otherwise a 5% chance of Damaged,
else Dry. -/
def generate_road_condition (weather_condition : Option String) (g : RNG) : String × RNG :=
  if weather_condition = some "Snow" then ("Snowy", g)
  else if weather_condition = some "Rain" ∨ weather_condition = some "Storm" then ("Wet", g)
  else
    let p := randFloat g
    (if p.1 < 5 / 100 then "Damaged" else "Dry", p.2)

/-- Model of `calculate_avg_speed` (traffic_raw.py line 53).  Comparing a
null vehicle count raises in Python; the surrounding `try` then uses the
fallback base-speed band, exactly the `none` branch here. -/
def calculate_avg_speed (vehicle_count : Option ℚ) (weather_condition road_condition : Option String)
    (g : RNG) : ℚ × RNG :=
  let bs : ℚ × RNG :=
    match vehicle_count with
    | none =>
      let u := rand_uniform 60 90 g
      (round2 u.1, u.2)
    | some v =>
      if v > 3000 then
        let u := rand_uniform 10 30 g
        (round2 u.1, u.2)
      else if v > 1500 then
        let u := rand_uniform 30 50 g
        (round2 u.1, u.2)
      else
        let u := rand_uniform 50 90 g
        (round2 u.1, u.2)
  let b1 : ℚ :=
    if weather_condition = some "Rain" ∨ weather_condition = some "Snow" ∨
        weather_condition = some "Storm" then bs.1 - 15
    else if weather_condition = some "Fog" then bs.1 - 10
    else bs.1
  let b2 : ℚ := if road_condition = some "Damaged" then b1 - 20 else b1
  let j := rand_uniform (-10) 10 bs.2
  (max 3 (round2 (b2 + j.1)), j.2)

/-- Model of `determine_congestion` (traffic_raw.py line 82).  Python's
short-circuit evaluation means a null (or otherwise incomparable) operand
raises exactly when its comparison is reached, and the surrounding
`try` then returns "Low"; the `none` branches are those exception paths. -/
def determine_congestion (vehicle_count avg_speed : Option ℚ) : String :=
  match vehicle_count with
  | none => "Low"
  | some v =>
    if v > 3500 then "High"
    else
      match avg_speed with
      | none => "Low"
      | some a =>
        if a < 15 then "High"
        else if v > 1500 then "Medium"
        else if a < 35 then "Medium"
        else "Low"

/-- Model of `generate_accidents` (traffic_raw.py line 90). -/
def generate_accidents (weather_condition congestion_level : Option String) (g : RNG) : ℚ × RNG :=
  let prob : ℚ :=
    5 / 100
    + (if weather_condition = some "Rain" ∨ weather_condition = some "Storm" ∨
          weather_condition = some "Snow" ∨ weather_condition = some "Fog" then 15 / 100 else 0)
    + (if congestion_level = some "High" then 10 / 100 else 0)
  let p := randFloat g
  if p.1 < prob then
    let c := pychoice (1 : ℚ) [1, 1, 2, 2, 3] p.2
    (c.1, c.2)
  else (0, p.2)

/-- Model of `get_traffic_visibility` (traffic_raw.py line 101): the noise
draw happens before the addition, so it is consumed even when the paired
weather visibility is null or textual and the addition raises, in which
case the `except` yields the fixed default 10000. -/
def get_traffic_visibility (weather_vis_value : Option Vis) (g : RNG) : ℚ × RNG :=
  let noise := randint (-500) 500 g
  match weather_vis_value with
  | some (Vis.num q) => ((max 0 (pyInt (q + (noise.1 : ℚ))) : Int), noise.2)
  | _ => (10000, noise.2)

/-- One iteration of the row loop of `generate_traffic_dataset`
(traffic_raw.py lines 129-156), pairing positionally with weather row `w`
at index `i`; random draws in the evaluation order of the source (the
`traffic_id` and `city` null-checks happen when the row dict is built,
after all other fields; `date_time` is read from the weather row with no
draw at all). -/
def genTrafficRow (cfg : TCfg) (i : Nat) (w : WRow) (g0 : RNG) : TRow × RNG :=
  let date_time := w.date_time
  let arv := generate_area g0
  let ar := maybe_null cfg.null_ratio arv.1 arv.2
  let vcv := generate_vehicle_count date_time ar.2
  let vc1 := with_outliers cfg.outlier_ratio id ((vcv.1 : ℚ)) 20000 30000 vcv.2
  let vc := maybe_null cfg.null_ratio vc1.1 vc1.2
  let rcv := generate_road_condition w.weather_condition vc.2
  let rc := maybe_null cfg.null_ratio rcv.1 rcv.2
  let asv := calculate_avg_speed vc.1 w.weather_condition rc.1 rc.2
  let as1 := with_outliers cfg.outlier_ratio id asv.1 (-1) 500 asv.2
  let asp := maybe_null cfg.null_ratio as1.1 as1.2
  let cgv := determine_congestion vc.1 asp.1
  let cg := maybe_null cfg.null_ratio cgv asp.2
  let acv := generate_accidents w.weather_condition cg.1 cg.2
  let ac1 := with_outliers cfg.outlier_ratio id acv.1 20 50 acv.2
  let ac := maybe_null cfg.null_ratio ac1.1 ac1.2
  let viv := get_traffic_visibility w.visibility_m ac.2
  let vi1 := with_outliers cfg.outlier_ratio id viv.1 50000 120000 viv.2
  let vi := maybe_null cfg.null_ratio vi1.1 vi1.2
  let tid := maybe_null cfg.null_ratio ((9001 + (i : Int))) vi.2
  let city := maybe_null cfg.null_ratio "London" tid.2
  ({ traffic_id := tid.1, date_time := date_time, city := city.1, area := ar.1,
     vehicle_count := vc.1, road_condition := rc.1, avg_speed_kmh := asp.1,
     congestion_level := cg.1, accident_count := ac.1, visibility_m := vi.1 }, city.2)

/-- The base row loop `for i in range(len(weather_df))` of
`generate_traffic_dataset`: one traffic row per weather row, in order,
starting at index `i`. -/
def genTrafficRows (cfg : TCfg) : List WRow → Nat → RNG → List TRow × RNG
  | [], _, g => ([], g)
  | w :: ws, i, g =>
    let r := genTrafficRow cfg i w g
    let rest := genTrafficRows cfg ws (i + 1) r.2
    (r.1 :: rest.1, rest.2)

/-- Model of `generate_traffic_dataset` (traffic_raw.py lines 8-164).
`ambient` is the state of the global random sources before the call; lines
17-18 re-seed both with 43, so the body never reads it.  The base loop runs
over the length of `weather_df`, while the duplicate count is
`int(n_rows * duplicate_ratio)` from the function's own `n_rows` parameter.
Returns `none` exactly when `df.sample(dup_count)` would raise. -/
def generate_traffic_dataset (ambient : GState) (weather_df : List WRow) (cfg : TCfg) :
    Option (List TRow) :=
  let gpy := mkRNG 43
  let gnp := mkRNG 43
  let rows := (genTrafficRows cfg weather_df 0 gpy).1
  let dup_count := pyInt ((cfg.n_rows : ℚ) * cfg.duplicate_ratio)
  if 0 ≤ dup_count ∧ dup_count.toNat ≤ rows.length then
    some (rows ++ (sampleIdx dup_count.toNat rows gnp).1)
  else none

/-- A scalar value of the silver-layer tables read by the merge step. -/
inductive MVal
  | none
  | num (q : ℚ)
  | str (s : String)
  | time (t : Nat)
deriving DecidableEq, Repr

/-- One row of a silver-layer table as read by `merge_data`: the two join
key columns, the colliding `visibility_m` column, and the remaining
payload columns. -/
structure SRow where
  date_time : MVal
  city : MVal
  visibility_m : MVal
  rest : List MVal
deriving DecidableEq, Repr

/-- Model of `pd.to_datetime` as used on a whole column in merge_datasets.py
lines 33-34 (no `errors="coerce"`): datetime-like values are canonicalized,
missing values become NaT, anything unparseable raises, which the
surrounding `try` of `merge_data` turns into a reported error. -/
def to_datetime (v : MVal) : Except String MVal :=
  match v with
  | MVal.time t => Except.ok (MVal.time t)
  | MVal.none => Except.ok MVal.none
  | _ => Except.error "could not convert date_time"

/-- Coerce the `date_time` column of a table row by row, propagating a parse
failure of any row. -/
def coerce_dates : List SRow → Except String (List SRow)
  | [] => Except.ok []
  | r :: rs =>
    match to_datetime r.date_time with
    | Except.error e => Except.error e
    | Except.ok d =>
      match coerce_dates rs with
      | Except.error e => Except.error e
      | Except.ok rest => Except.ok (SRow.mk d r.city r.visibility_m r.rest :: rest)

/-- The merge key of a row: the `(date_time, city)` pair. -/
def rowKey (r : SRow) : MVal × MVal := (r.date_time, r.city)

/-- Whether a traffic row and a weather row agree on the merge key. -/
def keyMatch (t w : SRow) : Bool := rowKey t = rowKey w

/-- One merged row, with the colliding `visibility_m` columns renamed to
`visibility_traffic` / `visibility_weather` (merge_datasets.py lines
38-39). -/
structure MergedRow where
  date_time : MVal
  city : MVal
  visibility_traffic : MVal
  traffic_rest : List MVal
  visibility_weather : MVal
  weather_rest : List MVal
deriving DecidableEq, Repr

/-- Combine one matching pair into a merged row. -/
def mergeRows (t w : SRow) : MergedRow :=
  MergedRow.mk t.date_time t.city t.visibility_m t.rest w.visibility_m w.rest

/-- All matching `(traffic, weather)` row pairs of the inner join, in
pandas order: per left (traffic) row, every matching right (weather) row. -/
def joinPairs : List SRow → List SRow → List (SRow × SRow)
  | [], _ => []
  | t :: ts, wdf => (wdf.filter (keyMatch t)).map (fun w => (t, w)) ++ joinPairs ts wdf

/-- Model of `pd.merge(traffic_df, weather_df, on=["date_time", "city"],
how="inner")` (merge_datasets.py lines 44-49): one output row per matching
key pair. -/
def innerJoin (tdf wdf : List SRow) : List MergedRow :=
  (joinPairs tdf wdf).map (fun p => mergeRows p.1 p.2)

/-- Model of the in-memory core of `merge_data` (merge_datasets.py lines
11-70): coerce both `date_time` columns, rename the colliding visibility
columns, inner-join on `(date_time, city)`, and fail with a validation
error when the result is empty — in the source the `raise ValueError`
precedes the write to the gold bucket, so no output is persisted in the
error case, and the `except` reports the error instead of succeeding. -/
def merge_data (weather_df traffic_df : List SRow) : Except String (List MergedRow) :=
  match coerce_dates weather_df with
  | Except.error e => Except.error e
  | Except.ok w =>
    match coerce_dates traffic_df with
    | Except.error e => Except.error e
    | Except.ok t =>
      if (innerJoin t w).length = 0 then
        Except.error "Merge resulted in 0 rows! Check date_time formats."
      else Except.ok (innerJoin t w)

/-- Length of a successful merge, `none` when `merge_data` reports an
error. -/
def mergeLen (weather_df traffic_df : List SRow) : Option Nat :=
  match merge_data weather_df traffic_df with
  | Except.ok r => some r.length
  | Except.error _ => none

/-- Key uniqueness of a table: all rows have pairwise distinct
`(date_time, city)` keys. -/
def KeysUnique (df : List SRow) : Prop :=
  df.Pairwise (fun a b => rowKey a ≠ rowKey b)

instance (df : List SRow) : Decidable (KeysUnique df) :=
  inferInstanceAs (Decidable (df.Pairwise _))

/-- An arbitrary ambient state of the global random sources, standing for
whatever state a run starts from. -/
def ambient0 : GState := GState.mk (mkRNG 7) (mkRNG 9)

/-- A second, different ambient state (used to exercise determinism). -/
def ambient1 : GState := GState.mk (mkRNG 123456789) (mkRNG 987654321)

/-- A clean, fully populated weather row used as concrete test input for the
traffic generator (the traffic generator accepts any weather table). -/
def wRowClean (i : Nat) : WRow :=
  WRow.mk (some (5001 + (i : Int))) (some (TS.good 0 (2 * i))) (some "London") (some "Winter")
    (some 10) (some 50) (some 0) (some "Clear") (some 20) (some (Vis.num 9000)) (some 1000)

/-- A weather row whose city was nulled by defect injection. -/
def wRowNullCity : WRow :=
  WRow.mk (some 5001) (some (TS.good 0 0)) none (some "Winter")
    (some 10) (some 50) (some 0) (some "Clear") (some 20) (some (Vis.num 9000)) (some 1000)

/-- A weather row with condition Snow and numeric visibility 5000 (the
concrete scenario of the specification). -/
def wRowSnow5000 : WRow :=
  WRow.mk (some 5001) (some (TS.good 0 0)) (some "London") (some "Winter")
    (some (-2)) (some 70) (some 0) (some "Snow") (some 10) (some (Vis.num 5000)) (some 1000)

/-- Small weather configuration: 2 base rows, duplicate ratio 1/2. -/
def cfgW1 : WCfg := WCfg.mk 2 (1 / 2) (1 / 10) (1 / 10) (1 / 100)

/-- Traffic configuration with `n_rows = 8` (distinct from the length of the
4-row weather table it is run on), duplicate ratio 1/2. -/
def cfgT1 : TCfg := TCfg.mk 8 (1 / 2) (1 / 10) (1 / 10)

/-- A 4-row weather input table. -/
def wdf4 : List WRow := [wRowClean 0, wRowClean 1, wRowClean 2, wRowClean 3]

/-- Traffic configuration with nulling switched off. -/
def cfgTnoNull : TCfg := TCfg.mk 1 0 0 (1 / 10)

/-- Traffic configuration with nulling forced (probability 1). -/
def cfgTallNull : TCfg := TCfg.mk 1 0 1 (1 / 10)

/-- Five copies of the Snow / visibility-5000 weather row. -/
def wdfSnow : List WRow := List.replicate 5 wRowSnow5000

/-- Traffic configuration for the Snow run: no nulling, no duplicates,
default outlier ratio 1/10. -/
def cfgTSnow : TCfg := TCfg.mk 5 0 0 (1 / 10)

/-- The shape of the weather-condition cascade claimed by the specification:
Snow only for non-null temperature at most 5, and otherwise-impossible
results per precipitation bucket. -/
def CascadeSpec (rain_mm temperature_c : Option ℚ) (c : String) : Prop :=
  (c = "Snow" → ∃ tq, temperature_c = some tq ∧ tq ≤ 5) ∧
  (rain_mm = none → c = "Snow" ∨ c = "Clear" ∨ c = "Fog") ∧
  ∀ rq, rain_mm = some rq →
    (50 ≤ rq → c = "Snow" ∨ c = "Storm" ∨ c = "Rain") ∧
    (25 ≤ rq → rq < 50 → c = "Snow" ∨ c = "Rain") ∧
    (10 ≤ rq → rq < 25 → c = "Snow" ∨ c = "Rain" ∨ c = "Clear") ∧
    (0 < rq → rq < 10 → c = "Snow" ∨ c = "Clear" ∨ c = "Fog") ∧
    (rq ≤ 0 → c = "Snow" ∨ c = "Clear")

/-- A silver-layer row with the given timestamp and city. -/
def sRow (t : Nat) (c : String) : SRow :=
  SRow.mk (MVal.time t) (MVal.str c) (MVal.num 5000) []

/-- Weather / traffic silver tables with no overlapping keys. -/
def wSdisj : List SRow := [sRow 0 "London"]

/-- Traffic side of the disjoint-key pair. -/
def tSdisj : List SRow := [sRow 2 "London"]

/-- Weather / traffic silver tables with one overlapping key each. -/
def wSmatch : List SRow := [sRow 0 "London", sRow 2 "London"]

/-- Traffic side of the matching pair (unique keys, one overlap). -/
def tSmatch : List SRow := [sRow 0 "London", sRow 4 "London"]

/-- A table consisting of one duplicated key, twice — as the generators
deliberately produce via their duplicate tails. -/
def wSdup : List SRow := [sRow 0 "London", sRow 0 "London"]

/-- Traffic side with the same duplicated key. -/
def tSdup : List SRow := [sRow 0 "London", sRow 0 "London"]

theorem rngNext_lt (g : RNG) : (rngNext g).1 < 1073741824 := by
  simp only [rngNext]
  exact Nat.mod_lt _ (by norm_num)

theorem randFloat_nonneg (g : RNG) : 0 ≤ (randFloat g).1 := by
  simp only [randFloat]
  positivity

theorem randFloat_lt_one (g : RNG) : (randFloat g).1 < 1 := by
  simp only [randFloat]
  rw [div_lt_one (by norm_num)]
  exact_mod_cast rngNext_lt g

theorem rand_uniform_mem (a b : ℚ) (g : RNG) (h : a ≤ b) :
    a ≤ (rand_uniform a b g).1 ∧ (rand_uniform a b g).1 ≤ b := by
  simp only [rand_uniform]
  constructor
  · nlinarith [randFloat_nonneg g, randFloat_lt_one g]
  · nlinarith [randFloat_nonneg g, randFloat_lt_one g]

theorem randint_mem (a b : Int) (g : RNG) (h : a ≤ b) :
    a ≤ (randint a b g).1 ∧ (randint a b g).1 ≤ b := by
  simp only [randint]
  have h1 : (0 : Int) < b - a + 1 := by omega
  have h2 := Int.emod_nonneg (((rngNext g).1 : Int)) (by omega : b - a + 1 ≠ 0)
  have h3 := Int.emod_lt_of_pos (((rngNext g).1 : Int)) h1
  omega

theorem pychoice_mem (x : α) (xs : List α) (g : RNG) : (pychoice x xs g).1 ∈ x :: xs := by
  simp only [pychoice]
  exact List.get_mem _ _ _

theorem maybe_null_cases (p : ℚ) (v : α) (g : RNG) :
    (maybe_null p v g).1 = none ∨ (maybe_null p v g).1 = some v := by
  simp only [maybe_null]
  split <;> simp

theorem maybe_null_allNull (p : ℚ) (h : 1 ≤ p) (v : α) (g : RNG) :
    (maybe_null p v g).1 = none := by
  simp only [maybe_null]
  rw [if_pos (lt_of_lt_of_le (randFloat_lt_one g) h)]

theorem maybe_null_noNull (p : ℚ) (h : p ≤ 0) (v : α) (g : RNG) :
    (maybe_null p v g).1 = some v := by
  simp only [maybe_null]
  rw [if_neg (not_lt.2 (le_trans h (randFloat_nonneg g)))]

theorem with_outliers_cases (p : ℚ) (emb : ℚ → α) (v : α) (lo hi : ℚ) (g : RNG) :
    (with_outliers p emb v lo hi g).1 = v ∨
    ∃ u : ℚ, ((lo - 25 ≤ u ∧ u ≤ lo) ∨ (hi ≤ u ∧ u ≤ hi + 25)) ∧
      (with_outliers p emb v lo hi g).1 = emb u := by
  simp only [with_outliers]
  split
  · split
    · right
      exact ⟨_, Or.inl (rand_uniform_mem _ _ _ (by linarith)), rfl⟩
    · right
      exact ⟨_, Or.inr (rand_uniform_mem _ _ _ (by linarith)), rfl⟩
  · left; rfl

theorem pyInt_ofNonneg (q : ℚ) (h : 0 ≤ q) : pyInt q = ⌊q⌋ := by
  rw [pyInt, Rat.floor_def, Int.tdiv_eq_ediv (Rat.num_nonneg.2 h) (by positivity)]

theorem pyInt_intCast (n : Int) : pyInt ((n : ℚ)) = n := by
  rw [pyInt, Rat.num_intCast, Rat.den_intCast, Nat.cast_one, Int.tdiv_one]

theorem genWeatherRows_length (cfg : WCfg) :
    ∀ (n i : Nat) (g : RNG), ((genWeatherRows cfg n i g).1).length = n := by
  intro n
  induction n with
  | zero => intro i g; rfl
  | succ n ih => intro i g; simp [genWeatherRows, ih]

theorem genTrafficRows_length (cfg : TCfg) :
    ∀ (ws : List WRow) (i : Nat) (g : RNG), ((genTrafficRows cfg ws i g).1).length = ws.length := by
  intro ws
  induction ws with
  | nil => intro i g; rfl
  | cons w ws ih => intro i g; simp [genTrafficRows, ih]

theorem sampleIdx_length :
    ∀ (k : Nat) (xs : List α) (g : RNG), k ≤ xs.length → ((sampleIdx k xs g).1).length = k := by
  intro k
  induction k with
  | zero => intro xs g _; rfl
  | succ k ih =>
    intro xs g hk
    match xs with
    | [] => simp at hk
    | x :: xs' =>
      simp only [sampleIdx, List.length_cons]
      have hmod : (rngNext g).1 % (xs'.length + 1) < (x :: xs').length := by
        simp only [List.length_cons]
        exact Nat.mod_lt _ (Nat.succ_pos _)
      have herase : (((x :: xs').eraseIdx ((rngNext g).1 % (xs'.length + 1)))).length = xs'.length := by
        rw [List.length_eraseIdx, if_pos hmod]
        simp
      rw [ih _ _ (by simp only [List.length_cons] at hk; omega : k ≤ (((x :: xs').eraseIdx ((rngNext g).1 % (xs'.length + 1)))).length ) ]

theorem genTrafficRows_get (cfg : TCfg) :
    ∀ (ws : List WRow) (i j : Nat) (g : RNG) (w : WRow), ws[j]? = some w →
      ∃ g', ((genTrafficRows cfg ws i g).1)[j]? = some ((genTrafficRow cfg (i + j) w g').1) := by
  intro ws
  induction ws with
  | nil => intro i j g w h; simp at h
  | cons w0 ws ih =>
    intro i j g w h
    match j with
    | 0 =>
      rw [List.getElem?_cons_zero] at h
      injection h with h
      subst h
      exact ⟨g, by simp [genTrafficRows]⟩
    | j + 1 =>
      rw [List.getElem?_cons_succ] at h
      obtain ⟨g', hg⟩ := ih (i + 1) j _ w h
      refine ⟨g', ?_⟩
      have harith : i + 1 + j = i + (j + 1) := by omega
      rw [harith] at hg
      simpa [genTrafficRows] using hg

theorem generate_traffic_dataset_row (amb : GState) (wdf : List WRow) (cfg : TCfg)
    (t : List TRow) (i : Nat) (w : WRow) (r : TRow)
    (ht : generate_traffic_dataset amb wdf cfg = some t)
    (hw : wdf[i]? = some w) (hr : t[i]? = some r) :
    ∃ g, r = (genTrafficRow cfg i w g).1 := by
  simp only [generate_traffic_dataset] at ht
  split at ht
  · injection ht with ht
    subst ht
    have hi : i < wdf.length := by
      by_contra hni
      push_neg at hni
      rw [List.getElem?_eq_none hni] at hw
      exact Option.noConfusion hw
    have hbase := genTrafficRows_length cfg wdf 0 (mkRNG 43)
    rw [List.getElem?_append_left (by omega)] at hr
    obtain ⟨g', hg⟩ := genTrafficRows_get cfg wdf 0 i (mkRNG 43) w hw
    rw [Nat.zero_add] at hg
    rw [hg] at hr
    injection hr with hr
    exact ⟨g', hr.symm⟩
  · exact Option.noConfusion ht

theorem genTrafficRow_date_time (cfg : TCfg) (i : Nat) (w : WRow) (g : RNG) :
    ((genTrafficRow cfg i w g).1).date_time = w.date_time := rfl

theorem genTrafficRow_city_cases (cfg : TCfg) (i : Nat) (w : WRow) (g : RNG) :
    ((genTrafficRow cfg i w g).1).city = none ∨
    ((genTrafficRow cfg i w g).1).city = some "London" :=
  maybe_null_cases _ _ _

theorem genTrafficRow_road_cases (cfg : TCfg) (i : Nat) (w : WRow) (g : RNG) :
    ((genTrafficRow cfg i w g).1).road_condition = none ∨
    ∃ g', ((genTrafficRow cfg i w g).1).road_condition
        = some ((generate_road_condition w.weather_condition g').1) := by
  rcases maybe_null_cases (α := String) cfg.null_ratio _ _ with h | h
  · exact Or.inl h
  · exact Or.inr ⟨_, h⟩

theorem genTrafficRow_vis_cases (cfg : TCfg) (i : Nat) (w : WRow) (g : RNG) :
    ((genTrafficRow cfg i w g).1).visibility_m = none ∨
    ∃ ga gb, ((genTrafficRow cfg i w g).1).visibility_m
        = some ((with_outliers cfg.outlier_ratio id ((get_traffic_visibility w.visibility_m ga).1)
            50000 120000 gb).1) := by
  rcases maybe_null_cases (α := ℚ) cfg.null_ratio _ _ with h | h
  · exact Or.inl h
  · exact Or.inr ⟨_, _, h⟩

theorem genTrafficRow_allNull (cfg : TCfg) (h : 1 ≤ cfg.null_ratio) (i : Nat) (w : WRow)
    (g : RNG) :
    ((genTrafficRow cfg i w g).1).traffic_id = none ∧
    ((genTrafficRow cfg i w g).1).date_time = w.date_time ∧
    ((genTrafficRow cfg i w g).1).city = none ∧
    ((genTrafficRow cfg i w g).1).area = none ∧
    ((genTrafficRow cfg i w g).1).vehicle_count = none ∧
    ((genTrafficRow cfg i w g).1).road_condition = none ∧
    ((genTrafficRow cfg i w g).1).avg_speed_kmh = none ∧
    ((genTrafficRow cfg i w g).1).congestion_level = none ∧
    ((genTrafficRow cfg i w g).1).accident_count = none ∧
    ((genTrafficRow cfg i w g).1).visibility_m = none := by
  refine ⟨?_, rfl, ?_, ?_, ?_, ?_, ?_, ?_, ?_, ?_⟩ <;> exact maybe_null_allNull _ h _ _

/-- C1, as stated, is false for the traffic generator: its duplicate tail is
`int(n_rows * duplicate_ratio)` computed from the function's own `n_rows`
parameter (traffic_raw.py line 161), not from the paired weather table
length.  On a 4-row weather table with `n_rows = 8` and duplicate ratio 1/2
the output has 4 + 4 = 8 rows, while the claim predicts
4 + floor(4 * 1/2) = 6 rows. -/
theorem c1_counterexample :
    (generate_traffic_dataset ambient0 wdf4 cfgT1).map List.length = some 8 ∧
    wdf4.length = 4 ∧ cfgT1.duplicate_ratio = 1 / 2 ∧
    (8 : Nat) ≠ wdf4.length + (⌊(wdf4.length : ℚ) * cfgT1.duplicate_ratio⌋).toNat := by
  refine ⟨by decide, rfl, rfl, ?_⟩
  show (8 : Nat) ≠ 4 + (⌊(4 : ℚ) * (1 / 2 : ℚ)⌋).toNat
  have h2 : ⌊(4 : ℚ) * (1 / 2 : ℚ)⌋ = 2 := by norm_num
  rw [h2]
  decide

/-- C1 (amended): the weather generator's output has exactly
`n_rows + floor(n_rows * duplicate_ratio)` rows; the traffic generator's
output on a weather table of length `L` has exactly
`L + floor(n_rows * duplicate_ratio)` rows, where `n_rows` is the traffic
generator's own row-count parameter, not the weather table length
(whenever the generators return a table at all, and the duplicate ratio is
non-negative). -/
theorem c1_row_count_amended :
    (∀ (amb : GState) (cfg : WCfg) (t : List WRow),
        generate_weather_dataset amb cfg = some t → 0 ≤ cfg.duplicate_ratio →
        t.length = cfg.n_rows + (⌊(cfg.n_rows : ℚ) * cfg.duplicate_ratio⌋).toNat) ∧
    (∀ (amb : GState) (wdf : List WRow) (cfg : TCfg) (t : List TRow),
        generate_traffic_dataset amb wdf cfg = some t → 0 ≤ cfg.duplicate_ratio →
        t.length = wdf.length + (⌊(cfg.n_rows : ℚ) * cfg.duplicate_ratio⌋).toNat) := by
  constructor
  · intro amb cfg t ht hd
    simp only [generate_weather_dataset] at ht
    split at ht
    · rename_i hcond
      injection ht with ht
      subst ht
      rw [List.length_append, genWeatherRows_length,
        sampleIdx_length _ _ _ (by exact hcond.2),
        pyInt_ofNonneg _ (mul_nonneg (by positivity) hd)]
    · exact Option.noConfusion ht
  · intro amb wdf cfg t ht hd
    simp only [generate_traffic_dataset] at ht
    split at ht
    · rename_i hcond
      injection ht with ht
      subst ht
      rw [List.length_append, genTrafficRows_length,
        sampleIdx_length _ _ _ (by exact hcond.2),
        pyInt_ofNonneg _ (mul_nonneg (by positivity) hd)]
    · exact Option.noConfusion ht

/-- Witness for C1 (amended) at concrete inputs: a 2-row weather run with
duplicate ratio 1/2 yields 3 rows, and a traffic run over a 4-row weather
table with `n_rows = 8`, duplicate ratio 1/2 yields 8 rows. -/
theorem c1_row_count_witness :
    (generate_weather_dataset ambient0 cfgW1).map List.length
        = some (cfgW1.n_rows + (⌊(cfgW1.n_rows : ℚ) * cfgW1.duplicate_ratio⌋).toNat) ∧
    (generate_traffic_dataset ambient0 wdf4 cfgT1).map List.length
        = some (wdf4.length + (⌊(cfgT1.n_rows : ℚ) * cfgT1.duplicate_ratio⌋).toNat) := by
  constructor
  · rcases hW : generate_weather_dataset ambient0 cfgW1 with _ | t
    · exact absurd hW (by decide)
    · rw [Option.map_some', c1_row_count_amended.1 ambient0 cfgW1 t hW (by decide)]
  · rcases hT : generate_traffic_dataset ambient0 wdf4 cfgT1 with _ | t
    · exact absurd hT (by decide)
    · rw [Option.map_some', c1_row_count_amended.2 ambient0 wdf4 cfgT1 t hT (by decide)]

/-- C4: the generators re-seed both global random sources on entry
(weather_raw.py lines 13-14 with seed 42, traffic_raw.py lines 17-18 with
seed 43), so for a fixed configuration two independent runs — whatever the
ambient states of the random sources — produce identical tables, and the
traffic generator is likewise deterministic given the same weather input
table. -/
theorem c4_determinism :
    (∀ (amb1 amb2 : GState) (cfg : WCfg),
        generate_weather_dataset amb1 cfg = generate_weather_dataset amb2 cfg) ∧
    (∀ (amb1 amb2 : GState) (wdf : List WRow) (cfg : TCfg),
        generate_traffic_dataset amb1 wdf cfg = generate_traffic_dataset amb2 wdf cfg) :=
  ⟨fun _ _ _ => rfl, fun _ _ _ _ => rfl⟩

theorem to_datetime_ok (v d : MVal) (h : to_datetime v = Except.ok d) : d = v := by
  match v with
  | MVal.time t => injection h with h; exact h.symm
  | MVal.none => injection h with h; exact h.symm
  | MVal.num q => exact Except.noConfusion h
  | MVal.str s => exact Except.noConfusion h

theorem coerce_dates_ok :
    ∀ (df dc : List SRow), coerce_dates df = Except.ok dc → dc = df := by
  intro df
  induction df with
  | nil => intro dc h; injection h with h; exact h.symm
  | cons r rs ih =>
    intro dc h
    simp only [coerce_dates] at h
    rcases hd : to_datetime r.date_time with e | d
    · rw [hd] at h; exact Except.noConfusion h
    · rw [hd] at h
      rcases hrest : coerce_dates rs with e | rest
      · rw [hrest] at h; exact Except.noConfusion h
      · rw [hrest] at h
        injection h with h
        subst h
        rw [ih rest hrest, to_datetime_ok _ _ hd]

theorem keyMatch_iff (t w : SRow) : keyMatch t w = true ↔ rowKey t = rowKey w := by
  simp [keyMatch]

theorem mem_joinPairs :
    ∀ (tdf wdf : List SRow) (p : SRow × SRow),
      p ∈ joinPairs tdf wdf ↔ p.1 ∈ tdf ∧ p.2 ∈ wdf ∧ keyMatch p.1 p.2 = true := by
  intro tdf
  induction tdf with
  | nil => intro wdf p; simp [joinPairs]
  | cons t ts ih =>
    intro wdf p
    simp only [joinPairs, List.mem_append, List.mem_map, List.mem_filter, ih, List.mem_cons]
    constructor
    · rintro (⟨w, ⟨hw, hk⟩, rfl⟩ | ⟨h1, h2, h3⟩)
      · exact ⟨Or.inl rfl, hw, hk⟩
      · exact ⟨Or.inr h1, h2, h3⟩
    · rintro ⟨h1 | h1, h2, h3⟩
      · left
        refine ⟨p.2, ⟨h2, ?_⟩, ?_⟩
        · rw [← h1]; exact h3
        · rw [← h1]
      · right; exact ⟨h1, h2, h3⟩

theorem KeysUnique.nodup {l : List SRow} (h : KeysUnique l) : l.Nodup :=
  List.Pairwise.imp (fun hne heq => hne (by rw [heq])) h

theorem KeysUnique.eq_of_rowKey {l : List SRow} (h : KeysUnique l) {a b : SRow}
    (ha : a ∈ l) (hb : b ∈ l) (hk : rowKey a = rowKey b) : a = b := by
  by_contra hne
  have hsymm : Symmetric (fun a b : SRow => rowKey a ≠ rowKey b) :=
    fun x y hxy heq => hxy heq.symm
  exact (List.Pairwise.forall hsymm h ha hb hne) hk

theorem joinPairs_nodup (tdf wdf : List SRow) (ht : KeysUnique tdf) (hw : KeysUnique wdf) :
    (joinPairs tdf wdf).Nodup := by
  induction tdf with
  | nil => exact List.Pairwise.nil
  | cons t ts ih =>
    have ht2 := List.pairwise_cons.1 ht
    simp only [joinPairs]
    apply List.Nodup.append
    · exact List.Nodup.map (fun a b hab => by simpa using congrArg Prod.snd hab)
        (List.Nodup.filter _ hw.nodup)
    · exact ih ht2.2
    · intro p hp hp2
      rw [List.mem_map] at hp
      obtain ⟨w, _, rfl⟩ := hp
      rw [mem_joinPairs] at hp2
      exact absurd rfl (ht2.1 t hp2.1)

theorem joinPairs_length_le (tdf wdf : List SRow) (ht : KeysUnique tdf) (hw : KeysUnique wdf) :
    (joinPairs tdf wdf).length ≤ min wdf.length tdf.length := by
  have hnd := joinPairs_nodup tdf wdf ht hw
  refine le_min ?_ ?_
  · have hsnd : ((joinPairs tdf wdf).map Prod.snd).Nodup := by
      apply List.Nodup.map_on ?_ hnd
      intro p hp q hq hpq
      rw [mem_joinPairs] at hp hq
      have hk1 := (keyMatch_iff _ _).1 hp.2.2
      have hk2 := (keyMatch_iff _ _).1 hq.2.2
      have hts : p.1 = q.1 := ht.eq_of_rowKey hp.1 hq.1 (by rw [hk1, hk2, hpq])
      exact Prod.ext hts hpq
    have hsub : ((joinPairs tdf wdf).map Prod.snd) ⊆ wdf := by
      intro x hx
      rw [List.mem_map] at hx
      obtain ⟨p, hp, rfl⟩ := hx
      exact ((mem_joinPairs _ _ _).1 hp).2.1
    calc (joinPairs tdf wdf).length
        = ((joinPairs tdf wdf).map Prod.snd).length := (List.length_map _ _).symm
      _ ≤ wdf.length := (List.subperm_of_subset hsnd hsub).length_le
  · have hfst : ((joinPairs tdf wdf).map Prod.fst).Nodup := by
      apply List.Nodup.map_on ?_ hnd
      intro p hp q hq hpq
      rw [mem_joinPairs] at hp hq
      have hk1 := (keyMatch_iff _ _).1 hp.2.2
      have hk2 := (keyMatch_iff _ _).1 hq.2.2
      have hws : p.2 = q.2 := hw.eq_of_rowKey hp.2.1 hq.2.1 (by rw [← hk1, ← hk2, hpq])
      exact Prod.ext hpq hws
    have hsub : ((joinPairs tdf wdf).map Prod.fst) ⊆ tdf := by
      intro x hx
      rw [List.mem_map] at hx
      obtain ⟨p, hp, rfl⟩ := hx
      exact ((mem_joinPairs _ _ _).1 hp).1
    calc (joinPairs tdf wdf).length
        = ((joinPairs tdf wdf).map Prod.fst).length := (List.length_map _ _).symm
      _ ≤ tdf.length := (List.subperm_of_subset hfst hsub).length_le

/-- C2: when the inner join of the coerced tables on `(date_time, city)` is
empty, `merge_data` reports the validation error (the `raise ValueError` of
merge_datasets.py line 54, surfaced by the `except` of line 69) instead of
succeeding; consequently a successful merge — the only case in which the
output is written to the gold bucket (line 61) — never carries zero rows. -/
theorem c2_empty_join_error :
    (∀ (weather_df traffic_df w t : List SRow),
        coerce_dates weather_df = Except.ok w → coerce_dates traffic_df = Except.ok t →
        innerJoin t w = [] →
        merge_data weather_df traffic_df
          = Except.error "Merge resulted in 0 rows! Check date_time formats.") ∧
    (∀ (weather_df traffic_df : List SRow) (res : List MergedRow),
        merge_data weather_df traffic_df = Except.ok res → res.length ≠ 0) := by
  constructor
  · intro wdf tdf w t hw ht hj
    simp only [merge_data, hw, ht, hj, List.length_nil, if_pos]
  · intro wdf tdf res hok
    unfold merge_data at hok
    split at hok
    · exact Except.noConfusion hok
    · split at hok
      · exact Except.noConfusion hok
      · split at hok
        · exact Except.noConfusion hok
        · rename_i hne
          injection hok with hok
          subst hok
          exact hne

/-- Witness for C2: on concrete one-row tables with disjoint keys the merge
reports the validation error; on concrete tables with one overlapping key it
succeeds with one row, which is indeed non-zero. -/
theorem c2_empty_join_witness :
    merge_data wSdisj tSdisj = Except.error "Merge resulted in 0 rows! Check date_time formats." ∧
    mergeLen wSmatch tSmatch = some 1 ∧ (1 : Nat) ≠ 0 := by
  refine ⟨?_, by rfl, ?_⟩
  · exact c2_empty_join_error.1 wSdisj tSdisj wSdisj tSdisj (by rfl) (by rfl) (by rfl)
  · have hok : merge_data wSmatch tSmatch = Except.ok (innerJoin tSmatch wSmatch) := by rfl
    have hne := c2_empty_join_error.2 wSmatch tSmatch _ hok
    have hlen : (innerJoin tSmatch wSmatch).length = 1 := by rfl
    rw [← hlen]
    exact hne

/-- C3, as stated, is false: with duplicated `(date_time, city)` keys — which
the generators deliberately inject via their duplicate tails — the pandas
inner join emits one row per matching pair, so two tables of two rows each
sharing one duplicated key merge into 4 rows, exceeding
`min(2, 2) = 2`. -/
theorem c3_counterexample :
    mergeLen wSdup tSdup = some 4 ∧ ¬(4 ≤ min wSdup.length tSdup.length) := by
  exact ⟨by rfl, by decide⟩

/-- C3 (amended): when the `(date_time, city)` keys are pairwise distinct
within each input table, the row count of a successful merge is at most the
minimum of the two input row counts. -/
theorem c3_join_bound_amended :
    ∀ (weather_df traffic_df : List SRow) (res : List MergedRow),
      merge_data weather_df traffic_df = Except.ok res →
      KeysUnique weather_df → KeysUnique traffic_df →
      res.length ≤ min weather_df.length traffic_df.length := by
  intro wdf tdf res hok hw ht
  unfold merge_data at hok
  split at hok
  · exact Except.noConfusion hok
  · rename_i w hcw
    split at hok
    · exact Except.noConfusion hok
    · rename_i t hct
      split at hok
      · exact Except.noConfusion hok
      · injection hok with hok
        subst hok
        have hwe := coerce_dates_ok wdf w hcw
        have hte := coerce_dates_ok tdf t hct
        subst hwe hte
        calc (innerJoin t w).length
            = (joinPairs t w).length := List.length_map _ _
          _ ≤ min w.length t.length := joinPairs_length_le t w ht hw

/-- Witness for C3 (amended): concrete two-row tables with unique keys and
one overlapping key merge into 1 row, at most `min(2, 2)`. -/
theorem c3_join_bound_witness :
    mergeLen wSmatch tSmatch = some 1 ∧
    1 ≤ min wSmatch.length tSmatch.length := by
  refine ⟨by rfl, ?_⟩
  have hok : merge_data wSmatch tSmatch = Except.ok (innerJoin tSmatch wSmatch) := by rfl
  have hb := c3_join_bound_amended wSmatch tSmatch _ hok (by decide) (by decide)
  have hlen : (innerJoin tSmatch wSmatch).length = 1 := by rfl
  rw [hlen] at hb
  exact hb

/-- C5, as stated, is false for the city column: the traffic generator sets
`city` to `maybe_null("London")` (traffic_raw.py line 146), a fresh value
independent of the paired weather row.  On a weather row whose city was
nulled, the paired traffic row (generated with nulling off) carries
`"London"`, not the weather row's null city. -/
theorem c5_counterexample :
    ((generate_traffic_dataset ambient0 [wRowNullCity] cfgTnoNull).bind
        (fun t => t[0]?)).map TRow.city = some (some "London") ∧
    wRowNullCity.city = none ∧ some "London" ≠ (none : Option String) := by
  exact ⟨by decide, rfl, by decide⟩

/-- C5 (amended): the traffic row at index `i` copies its timestamp verbatim
from the weather row at index `i` (traffic_raw.py line 134, stored at line
145 with no defect injection), while its city is independently generated as
`maybe_null("London")` — null or the constant `"London"`, not a copy of the
weather city. -/
theorem c5_copy_amended :
    ∀ (amb : GState) (wdf : List WRow) (cfg : TCfg) (t : List TRow) (i : Nat)
      (w : WRow) (r : TRow),
      generate_traffic_dataset amb wdf cfg = some t → wdf[i]? = some w → t[i]? = some r →
      r.date_time = w.date_time ∧ (r.city = none ∨ r.city = some "London") := by
  intro amb wdf cfg t i w r ht hw hr
  obtain ⟨g, rfl⟩ := generate_traffic_dataset_row amb wdf cfg t i w r ht hw hr
  exact ⟨genTrafficRow_date_time cfg i w g, genTrafficRow_city_cases cfg i w g⟩

/-- Witness for C5 (amended) on the concrete one-row run. -/
theorem c5_copy_witness :
    ∃ t r, generate_traffic_dataset ambient0 [wRowNullCity] cfgTnoNull = some t ∧
      t[0]? = some r ∧ r.date_time = some (TS.good 0 0) ∧
      (r.city = none ∨ r.city = some "London") := by
  rcases ht : generate_traffic_dataset ambient0 [wRowNullCity] cfgTnoNull with _ | t
  · exact absurd ht (by decide)
  · have hne : (generate_traffic_dataset ambient0 [wRowNullCity] cfgTnoNull).bind
        (fun l => l[0]?) ≠ none := by decide
    rw [ht] at hne
    have hne2 : t[0]? ≠ none := hne
    rcases hr : t[0]? with _ | r
    · exact absurd hr hne2
    · have hmain := c5_copy_amended ambient0 [wRowNullCity] cfgTnoNull t 0 wRowNullCity r ht rfl hr
      exact ⟨t, r, rfl, hr, hmain.1, hmain.2⟩

/-- C6, as stated, is false for the timestamp: the traffic `date_time` is
stored verbatim (traffic_raw.py line 145) and never passes through
`maybe_null`.  With nulling probability 1 every other field of the generated
row is null, but the timestamp still carries the weather value. -/
theorem c6_counterexample :
    cfgTallNull.null_ratio = 1 ∧
    ((generate_traffic_dataset ambient0 [wRowNullCity] cfgTallNull).bind
        (fun t => t[0]?)).map TRow.date_time = some (some (TS.good 0 0)) ∧
    ((generate_traffic_dataset ambient0 [wRowNullCity] cfgTallNull).bind
        (fun t => t[0]?)).map TRow.city = some none := by
  exact ⟨rfl, by decide, by decide⟩

/-- C6 (amended): in the traffic generator every generated field except the
timestamp passes through `maybe_null` (numeric fields after
`with_outliers`); the timestamp is copied from the weather row with no
defect injection.  Under nulling probability 1 every field except
`date_time` of every base row is therefore null. -/
theorem c6_null_policy_amended :
    ∀ (amb : GState) (wdf : List WRow) (cfg : TCfg) (t : List TRow) (i : Nat)
      (w : WRow) (r : TRow),
      generate_traffic_dataset amb wdf cfg = some t → wdf[i]? = some w → t[i]? = some r →
      1 ≤ cfg.null_ratio →
      r.traffic_id = none ∧ r.city = none ∧ r.area = none ∧ r.vehicle_count = none ∧
      r.road_condition = none ∧ r.avg_speed_kmh = none ∧ r.congestion_level = none ∧
      r.accident_count = none ∧ r.visibility_m = none ∧ r.date_time = w.date_time := by
  intro amb wdf cfg t i w r ht hw hr hnull
  obtain ⟨g, rfl⟩ := generate_traffic_dataset_row amb wdf cfg t i w r ht hw hr
  obtain ⟨h1, h2, h3, h4, h5, h6, h7, h8, h9, h10⟩ := genTrafficRow_allNull cfg hnull i w g
  exact ⟨h1, h3, h4, h5, h6, h7, h8, h9, h10, h2⟩

/-- Witness for C6 (amended) on the concrete all-null one-row run. -/
theorem c6_null_policy_witness :
    ∃ t r, generate_traffic_dataset ambient0 [wRowNullCity] cfgTallNull = some t ∧
      t[0]? = some r ∧ r.traffic_id = none ∧ r.city = none ∧ r.area = none ∧
      r.vehicle_count = none ∧ r.road_condition = none ∧ r.avg_speed_kmh = none ∧
      r.congestion_level = none ∧ r.accident_count = none ∧ r.visibility_m = none ∧
      r.date_time = some (TS.good 0 0) := by
  rcases ht : generate_traffic_dataset ambient0 [wRowNullCity] cfgTallNull with _ | t
  · exact absurd ht (by decide)
  · have hne : (generate_traffic_dataset ambient0 [wRowNullCity] cfgTallNull).bind
        (fun l => l[0]?) ≠ none := by decide
    rw [ht] at hne
    have hne2 : t[0]? ≠ none := hne
    rcases hr : t[0]? with _ | r
    · exact absurd hr hne2
    · obtain ⟨h1, h2, h3, h4, h5, h6, h7, h8, h9, h10⟩ :=
        c6_null_policy_amended ambient0 [wRowNullCity] cfgTallNull t 0 wRowNullCity r ht rfl hr
          (by decide)
      exact ⟨t, r, rfl, hr, h1, h2, h3, h4, h5, h6, h7, h8, h9, h10⟩

theorem gwc_rain_ne_snow (rain : Option ℚ) (g : RNG) : (gwc_rain rain g).1 ≠ "Snow" := by
  match rain with
  | none =>
    have hm := pychoice_mem "Clear" ["Fog"] g
    simp only [List.mem_cons, List.mem_singleton, List.not_mem_nil, or_false] at hm
    simp only [gwc_rain]
    rcases hm with h | h <;> rw [h] <;> simp
  | some rv =>
    simp only [gwc_rain]
    by_cases h50 : rv ≥ 50
    · rw [if_pos h50]
      split <;> simp
    · rw [if_neg h50]
      by_cases h25 : rv ≥ 25
      · rw [if_pos h25]; simp
      · rw [if_neg h25]
        by_cases h10 : rv ≥ 10
        · rw [if_pos h10]
          split <;> simp
        · rw [if_neg h10]
          by_cases h0 : rv > 0
          · rw [if_pos h0]
            have hm := pychoice_mem "Clear" ["Fog"] g
            simp only [List.mem_cons, List.mem_singleton, List.not_mem_nil, or_false] at hm
            rcases hm with h | h <;> rw [h] <;> simp
          · rw [if_neg h0]; simp

theorem gwc_rain_spec (rain temp : Option ℚ) (g : RNG) :
    CascadeSpec rain temp ((gwc_rain rain g).1) := by
  refine ⟨fun hs => absurd hs (gwc_rain_ne_snow rain g), ?_, ?_⟩
  · intro hnone
    subst hnone
    have hm := pychoice_mem "Clear" ["Fog"] g
    simp only [List.mem_cons, List.mem_singleton, List.not_mem_nil, or_false] at hm
    simp only [gwc_rain]
    tauto
  · intro rq hr
    subst hr
    simp only [gwc_rain]
    refine ⟨?_, ?_, ?_, ?_, ?_⟩
    · intro h50
      rw [if_pos (show rq ≥ 50 from h50)]
      split
      · right; left; rfl
      · right; right; rfl
    · intro h25 h50
      rw [if_neg (show ¬rq ≥ 50 by linarith), if_pos (show rq ≥ 25 from h25)]
      right; rfl
    · intro h10 h25
      rw [if_neg (show ¬rq ≥ 50 by linarith), if_neg (show ¬rq ≥ 25 by linarith),
        if_pos (show rq ≥ 10 from h10)]
      split
      · right; left; rfl
      · right; right; rfl
    · intro h0 h10
      rw [if_neg (show ¬rq ≥ 50 by linarith), if_neg (show ¬rq ≥ 25 by linarith),
        if_neg (show ¬rq ≥ 10 by linarith), if_pos (show rq > 0 from h0)]
      have hm := pychoice_mem "Clear" ["Fog"] g
      simp only [List.mem_cons, List.mem_singleton, List.not_mem_nil, or_false] at hm
      tauto
    · intro hle
      rw [if_neg (show ¬rq ≥ 50 by linarith), if_neg (show ¬rq ≥ 25 by linarith),
        if_neg (show ¬rq ≥ 10 by linarith), if_neg (show ¬rq > 0 by linarith)]
      right; rfl

/-- C7: the condition cascade of `generate_weather_condition`.  The only way
to produce `"Snow"` is the leading branch, which requires a non-null
temperature at most 5 and short-circuits the rest; otherwise the result is
determined by the precipitation buckets (at least 50 mm gives a Storm/Rain
split, at least 25 gives Rain, at least 10 a Rain/Clear split, positive a
Clear/Fog split, non-positive Clear; a null precipitation gives a Clear/Fog
split). -/
theorem c7_condition_cascade :
    ∀ (rain_mm temperature_c : Option ℚ) (g : RNG),
      CascadeSpec rain_mm temperature_c ((generate_weather_condition rain_mm temperature_c g).1) := by
  intro rain temp g
  match temp with
  | none => exact gwc_rain_spec rain none g
  | some tv =>
    simp only [generate_weather_condition]
    by_cases h5 : tv ≤ 5
    · rw [if_pos h5]
      by_cases hroll : (randFloat g).1 < 4 / 10
      · rw [if_pos hroll]
        refine ⟨fun _ => ⟨tv, rfl, h5⟩, fun _ => Or.inl rfl, ?_⟩
        intro rq hr
        exact ⟨fun _ => Or.inl rfl, fun _ _ => Or.inl rfl, fun _ _ => Or.inl rfl,
          fun _ _ => Or.inl rfl, fun _ => Or.inl rfl⟩
      · rw [if_neg hroll]
        exact gwc_rain_spec rain (some tv) (randFloat g).2
    · rw [if_neg h5]
      exact gwc_rain_spec rain (some tv) g

/-- Witness for C7: for precipitation 60 and temperature 10 the cascade
instantiates to the claim's Storm/Rain bucket (Snow being impossible at
temperature 10 by the first component). -/
theorem c7_condition_cascade_witness :
    (generate_weather_condition (some 60) (some 10) (mkRNG 5)).1 = "Snow" ∨
    (generate_weather_condition (some 60) (some 10) (mkRNG 5)).1 = "Storm" ∨
    (generate_weather_condition (some 60) (some 10) (mkRNG 5)).1 = "Rain" :=
  ((c7_condition_cascade (some 60) (some 10) (mkRNG 5)).2.2 60 rfl).1 (by norm_num)

theorem generate_road_condition_snow (g : RNG) :
    (generate_road_condition (some "Snow") g).1 = "Snowy" := rfl

theorem generate_road_condition_wet (wc : Option String) (g : RNG)
    (h : wc = some "Rain" ∨ wc = some "Storm") :
    (generate_road_condition wc g).1 = "Wet" := by
  rcases h with h | h <;> subst h <;> rfl

theorem generate_road_condition_other (wc : Option String) (g : RNG)
    (h1 : wc ≠ some "Snow") (h2 : wc ≠ some "Rain") (h3 : wc ≠ some "Storm") :
    (generate_road_condition wc g).1 = "Damaged" ∨ (generate_road_condition wc g).1 = "Dry" := by
  simp only [generate_road_condition]
  rw [if_neg h1, if_neg (show ¬(wc = some "Rain" ∨ wc = some "Storm") by tauto)]
  split
  · left; rfl
  · right; rfl

/-- C8: for every generated traffic row paired with weather row `i`, a
weather condition of Snow forces the road condition to Snowy and Rain or
Storm force it to Wet (whenever the road-condition field survives null
injection); for any other non-null weather condition the road condition is
Damaged (the 5% residual branch) or Dry, when not nulled. -/
theorem c8_road_condition :
    ∀ (amb : GState) (wdf : List WRow) (cfg : TCfg) (t : List TRow) (i : Nat)
      (w : WRow) (r : TRow),
      generate_traffic_dataset amb wdf cfg = some t → wdf[i]? = some w → t[i]? = some r →
      (w.weather_condition = some "Snow" → r.road_condition ≠ none →
        r.road_condition = some "Snowy") ∧
      ((w.weather_condition = some "Rain" ∨ w.weather_condition = some "Storm") →
        r.road_condition ≠ none → r.road_condition = some "Wet") ∧
      (∀ c, w.weather_condition = some c → c ≠ "Snow" → c ≠ "Rain" → c ≠ "Storm" →
        r.road_condition = none ∨ r.road_condition = some "Damaged" ∨
        r.road_condition = some "Dry") := by
  intro amb wdf cfg t i w r ht hw hr
  obtain ⟨g, rfl⟩ := generate_traffic_dataset_row amb wdf cfg t i w r ht hw hr
  rcases genTrafficRow_road_cases cfg i w g with hn | ⟨g', hv⟩
  · exact ⟨fun _ hne => absurd hn hne, fun _ hne => absurd hn hne,
      fun _ _ _ _ _ => Or.inl hn⟩
  · refine ⟨?_, ?_, ?_⟩
    · intro hcond _
      rw [hv, hcond, generate_road_condition_snow g']
    · intro hcond _
      rw [hv, generate_road_condition_wet w.weather_condition g' hcond]
    · intro c hcond hs hrn hst
      have h1 : w.weather_condition ≠ some "Snow" := by rw [hcond]; simp [hs]
      have h2 : w.weather_condition ≠ some "Rain" := by rw [hcond]; simp [hrn]
      have h3 : w.weather_condition ≠ some "Storm" := by rw [hcond]; simp [hst]
      rcases generate_road_condition_other w.weather_condition g' h1 h2 h3 with hd | hd
      · right; left; rw [hv, hd]
      · right; right; rw [hv, hd]

/-- Witness for C8: in the concrete Snow run the paired traffic row's road
condition is non-null, and the theorem forces it to Snowy. -/
theorem c8_road_condition_witness :
    ∃ t r, generate_traffic_dataset ambient0 wdfSnow cfgTSnow = some t ∧ t[0]? = some r ∧
      wRowSnow5000.weather_condition = some "Snow" ∧ r.road_condition = some "Snowy" := by
  have hrc : ((generate_traffic_dataset ambient0 wdfSnow cfgTSnow).bind
      (fun l => l[0]?)).map TRow.road_condition = some (some "Snowy") := by decide
  rcases ht : generate_traffic_dataset ambient0 wdfSnow cfgTSnow with _ | t
  · exact absurd ht (by decide)
  · rw [ht] at hrc
    have hrc2 : t[0]?.map TRow.road_condition = some (some "Snowy") := hrc
    rcases hr : t[0]? with _ | r
    · rw [hr] at hrc2; exact Option.noConfusion hrc2
    · rw [hr, Option.map_some'] at hrc2
      injection hrc2 with hrc3
      have hne : r.road_condition ≠ none := by rw [hrc3]; simp
      have hmain := (c8_road_condition ambient0 wdfSnow cfgTSnow t 0 wRowSnow5000 r ht
        (by rfl) hr).1 rfl hne
      exact ⟨t, r, rfl, hr, rfl, hmain⟩

theorem gtv_5000_bounds (g : RNG) :
    4500 ≤ (get_traffic_visibility (some (Vis.num 5000)) g).1 ∧
    (get_traffic_visibility (some (Vis.num 5000)) g).1 ≤ 5500 := by
  obtain ⟨h1, h2⟩ := randint_mem (-500) 500 g (by norm_num)
  simp only [get_traffic_visibility]
  rw [show (5000 : ℚ) + (((randint (-500) 500 g).1 : Int) : ℚ)
      = (((5000 + (randint (-500) 500 g).1 : Int)) : ℚ) by push_cast; ring]
  rw [pyInt_intCast]
  constructor
  · have hlo : (4500 : Int) ≤ max 0 (5000 + (randint (-500) 500 g).1) := by omega
    exact_mod_cast hlo
  · have hhi : max 0 (5000 + (randint (-500) 500 g).1) ≤ (5500 : Int) := by omega
    exact_mod_cast hhi

/-- C9, as stated, is false at the dataset level: after
`get_traffic_visibility` the value still passes through `with_outliers`
(traffic_raw.py line 141), which can replace it by an injected outlier far
outside `[4500, 5500]` even when nulling never strikes.  In the concrete
no-null run the traffic row paired with a weather row of visibility 5000
carries visibility 64432532343475/536870912 (approximately 120014.6). -/
theorem c9_counterexample :
    cfgTSnow.null_ratio = 0 ∧
    ((generate_traffic_dataset ambient0 wdfSnow cfgTSnow).bind
        (fun l => l[4]?)).map TRow.visibility_m
      = some (some ((64432532343475 : ℚ) / 536870912)) ∧
    wdfSnow[4]?.map WRow.visibility_m = some (some (Vis.num 5000)) ∧
    ¬(4500 ≤ (64432532343475 : ℚ) / 536870912 ∧ (64432532343475 : ℚ) / 536870912 ≤ 5500) := by
  refine ⟨rfl, by decide, by decide, by norm_num⟩

/-- C9 (amended): `get_traffic_visibility` adds signed noise in
`[-500, 500]` to a numeric paired weather visibility, truncates and floors
the sum at zero, and falls back to the fixed default 10000 on any non-numeric
input; consequently, for a paired weather visibility of 5000 the emitted
traffic visibility is either null, or in `[4500, 5500]`, or an injected
`with_outliers` value in `[49975, 50000]` or `[120000, 120025]` — so it lies
in `[4500, 5500]` only absent both nulling and outlier injection. -/
theorem c9_visibility_amended :
    (∀ (q : ℚ) (g : RNG), ∃ noise : Int, -500 ≤ noise ∧ noise ≤ 500 ∧
        (get_traffic_visibility (some (Vis.num q)) g).1
          = ((max 0 (pyInt (q + (noise : ℚ))) : Int) : ℚ)) ∧
    (∀ (v : Option Vis) (g : RNG), (∀ q, v ≠ some (Vis.num q)) →
        (get_traffic_visibility v g).1 = 10000) ∧
    (∀ (amb : GState) (wdf : List WRow) (cfg : TCfg) (t : List TRow) (i : Nat)
        (w : WRow) (r : TRow),
      generate_traffic_dataset amb wdf cfg = some t → wdf[i]? = some w → t[i]? = some r →
      w.visibility_m = some (Vis.num 5000) →
      r.visibility_m = none ∨ ∃ q, r.visibility_m = some q ∧
        ((4500 ≤ q ∧ q ≤ 5500) ∨ (49975 ≤ q ∧ q ≤ 50000) ∨
          (120000 ≤ q ∧ q ≤ 120025))) := by
  refine ⟨?_, ?_, ?_⟩
  · intro q g
    obtain ⟨h1, h2⟩ := randint_mem (-500) 500 g (by norm_num)
    exact ⟨(randint (-500) 500 g).1, h1, h2, rfl⟩
  · intro v g hnum
    match v with
    | none => rfl
    | some (Vis.txt s) => rfl
    | some (Vis.num q) => exact absurd rfl (hnum q)
  · intro amb wdf cfg t i w r ht hw hr hvis
    obtain ⟨g, rfl⟩ := generate_traffic_dataset_row amb wdf cfg t i w r ht hw hr
    rcases genTrafficRow_vis_cases cfg i w g with hn | ⟨ga, gb, hv⟩
    · exact Or.inl hn
    · right
      rw [hvis] at hv
      rcases with_outliers_cases cfg.outlier_ratio id
          ((get_traffic_visibility (some (Vis.num 5000)) ga).1) 50000 120000 gb with
        hsame | ⟨u, hu, hval⟩
      · exact ⟨_, by rw [hv, hsame], Or.inl (gtv_5000_bounds ga)⟩
      · refine ⟨u, by rw [hv, hval]; rfl, ?_⟩
        rcases hu with ⟨hu1, hu2⟩ | ⟨hu1, hu2⟩
        · right; left; constructor <;> linarith
        · right; right; constructor <;> linarith

/-- Witness for C9 (amended) at concrete inputs: the numeric branch at
visibility 5000, the textual fallback, and the dataset characterization on
the concrete Snow run (row 0, whose emitted visibility is 5263). -/
theorem c9_visibility_witness :
    (∃ noise : Int, -500 ≤ noise ∧ noise ≤ 500 ∧
        (get_traffic_visibility (some (Vis.num 5000)) (mkRNG 11)).1
          = ((max 0 (pyInt ((5000 : ℚ) + (noise : ℚ))) : Int) : ℚ)) ∧
    (get_traffic_visibility (some (Vis.txt "unknown")) (mkRNG 11)).1 = 10000 ∧
    (∃ t r, generate_traffic_dataset ambient0 wdfSnow cfgTSnow = some t ∧
      t[0]? = some r ∧ (r.visibility_m = none ∨ ∃ q, r.visibility_m = some q ∧
        ((4500 ≤ q ∧ q ≤ 5500) ∨ (49975 ≤ q ∧ q ≤ 50000) ∨
          (120000 ≤ q ∧ q ≤ 120025)))) := by
  refine ⟨c9_visibility_amended.1 5000 (mkRNG 11), ?_, ?_⟩
  · exact c9_visibility_amended.2.1 (some (Vis.txt "unknown")) (mkRNG 11) (fun q h => by
      injection h with h; exact Vis.noConfusion h)
  · rcases ht : generate_traffic_dataset ambient0 wdfSnow cfgTSnow with _ | t
    · exact absurd ht (by decide)
    · have hne : (generate_traffic_dataset ambient0 wdfSnow cfgTSnow).bind
          (fun l => l[0]?) ≠ none := by decide
      rw [ht] at hne
      have hne2 : t[0]? ≠ none := hne
      rcases hr : t[0]? with _ | r
      · exact absurd hr hne2
      · have hmain := c9_visibility_amended.2.2 ambient0 wdfSnow cfgTSnow t 0 wRowSnow5000 r
          ht (by rfl) hr rfl
        exact ⟨t, r, rfl, hr, hmain⟩

/-- C10: `determine_congestion` is total with range contained in High,
Medium and Low; a null vehicle count makes its very first comparison raise,
so the `except` returns Low whatever the speed; a null average speed
returns Low unless the vehicle count already decided High by short-circuit
(`vehicle_count > 3500`), in which case no comparison involving the null is
ever evaluated. -/
theorem c10_congestion_total :
    ∀ (vehicle_count avg_speed : Option ℚ),
      (determine_congestion vehicle_count avg_speed = "High" ∨
       determine_congestion vehicle_count avg_speed = "Medium" ∨
       determine_congestion vehicle_count avg_speed = "Low") ∧
      (vehicle_count = none → determine_congestion vehicle_count avg_speed = "Low") ∧
      (avg_speed = none →
        determine_congestion vehicle_count avg_speed = "Low" ∨
        ∃ v, vehicle_count = some v ∧ 3500 < v ∧
          determine_congestion vehicle_count avg_speed = "High") := by
  intro vc avs
  refine ⟨?_, ?_, ?_⟩
  · match vc, avs with
    | none, _ => right; right; rfl
    | some v, none =>
      simp only [determine_congestion]
      split
      · left; rfl
      · right; right; rfl
    | some v, some a =>
      simp only [determine_congestion]
      split_ifs <;> simp
  · intro h
    subst h
    rfl
  · intro h
    subst h
    match vc with
    | none => left; rfl
    | some v =>
      by_cases h3 : v > 3500
      · right
        refine ⟨v, rfl, h3, ?_⟩
        simp only [determine_congestion]
        rw [if_pos h3]
      · left
        simp only [determine_congestion]
        rw [if_neg h3]

/-- Witness for C10: both inputs null yields Low, and a 4000-strong vehicle
count with null speed yields High through the short-circuited first
comparison. -/
theorem c10_congestion_total_witness :
    determine_congestion none none = "Low" ∧
    (determine_congestion (some 4000) none = "Low" ∨
      ∃ v, (some (4000 : ℚ)) = some v ∧ 3500 < v ∧
        determine_congestion (some 4000) none = "High") :=
  ⟨(c10_congestion_total none none).2.1 rfl,
   (c10_congestion_total (some 4000) none).2.2 rfl⟩
